import Mathlib

/-!
Shallow embedding of the bike_fit_analyzer pose-to-recommendation pipeline.

Python floats are embedded as rationals (`ℚ`) for the discrete pipeline
(classification, rule engine, aggregation, feedback) and as reals (`ℝ`) for
the trigonometric angle geometry.  The Python insertion-ordered `dict` of angle
values is embedded as an association list `List (String × ℚ)`; the Python
stable `list.sort(key=...)` is embedded as `List.insertionSort`, which is
stable for the same total preorder on the sort key.
-/

namespace BikeFit

/-- 2D point with integer pixel coordinates (`models/angles.py`, `Point`). -/
structure Point where
  x : ℤ
  y : ℤ
deriving DecidableEq

/-- Two-argument arctangent, as used by `numpy.arctan2`: the polar angle of
the point `(x, y)`, in `(-π, π]`, with `atan2 0 0 = 0`. -/
noncomputable def atan2 (y x : ℝ) : ℝ := Complex.arg ⟨x, y⟩

/-- Embedding of `core/angle_calculator.py`, `calculate_angle`: absolute difference of the
two ray polar angles, converted to degrees, folded into `[0, 180]`. -/
noncomputable def calculate_angle (a b c : Point) : ℝ :=
  let radians := atan2 ((c.y : ℝ) - (b.y : ℝ)) ((c.x : ℝ) - (b.x : ℝ)) -
    atan2 ((a.y : ℝ) - (b.y : ℝ)) ((a.x : ℝ) - (b.x : ℝ))
  let angle := |radians * 180 / Real.pi|
  if angle > 180 then 360 - angle else angle

/-- Which body side the detector selects for angle computation. -/
inductive Side where
  | left : Side
  | right : Side
deriving DecidableEq

/-- Embedding of `core/pose_detector.py`, `_process_landmarks`: summed visibility of the
shoulder, hip and knee landmarks of one side. -/
def side_visibility (shoulder hip knee : ℚ) : ℚ := shoulder + hip + knee

/-- Embedding of `core/pose_detector.py`, `_process_landmarks` lines 150-163: the right
side is used when `right_visibility > left_visibility`, otherwise the left. -/
def select_side (right_visibility left_visibility : ℚ) : Side :=
  if right_visibility > left_visibility then Side.right else Side.left

/-- Embedding of `config/settings.py`, `IDEAL_ANGLES`. -/
def IDEAL_ANGLES : List (String × (ℚ × ℚ)) :=
  [("neck_angle", (65, 75)),
   ("shoulder_angle", (60, 110)),
   ("hip_angle", (65, 145)),
   ("knee_angle", (115, 180)),
   ("elbow_angle", (150, 160))]

/-- Embedding of `models/angles.py`, `Angle.is_in_range` body: `min_val <= value <= max_val`. -/
def is_in_range (v min_val max_val : ℚ) : Bool :=
  decide (min_val ≤ v) && decide (v ≤ max_val)

/-- The deviation computed by `analyze_pose` (`guidance/bike_adjustments.py`
lines 65-70): `min - v` when below, `v - max` when above, `0` when in range. -/
def deviation_of (v min_val max_val : ℚ) : ℚ :=
  if v < min_val then min_val - v
  else if v > max_val then v - max_val
  else 0

/-- Embedding of the `guidance/bike_adjustments.py` `AdjustmentRecommendation` dataclass. -/
structure AdjustmentRecommendation where
  component : String
  direction : String
  amount : ℚ
  priority : ℕ
  description : String
  angles_affected : List String
deriving DecidableEq

/-- Embedding of `BikeAdjustmentAnalyzer.minor_threshold`. -/
def minor_threshold : ℚ := 5
/-- Embedding of `BikeAdjustmentAnalyzer.moderate_threshold`. -/
def moderate_threshold : ℚ := 10
/-- Embedding of `BikeAdjustmentAnalyzer.major_threshold` (declared but unused in branching). -/
def major_threshold : ℚ := 15

/-- The priority/qualifier tier chain shared by both rule generators
(`bike_adjustments.py` lines 91-99 and 187-195). -/
def severity (deviation : ℚ) : ℕ × String :=
  if deviation < minor_threshold then (3, "slightly")
  else if deviation < moderate_threshold then (2, "moderately")
  else (1, "significantly")

/-- Embedding of `BikeAdjustmentAnalyzer._generate_recommendations_for_low_angle`. -/
def generate_recommendations_for_low_angle (angle_type : String) (deviation : ℚ) :
    List AdjustmentRecommendation :=
  let p := (severity deviation).1
  let t := (severity deviation).2
  if angle_type = "neck_angle" then
    [⟨"handlebar", "raise", deviation, p,
      "Raise handlebars " ++ t ++ " to reduce neck flexion",
      ["neck_angle", "shoulder_angle"]⟩] ++
    (if p < 3 then
      [⟨"stem", "shorten", deviation * 0.5, p + 1,
        "Consider a shorter stem to bring handlebars closer",
        ["neck_angle", "shoulder_angle"]⟩]
     else [])
  else if angle_type = "hip_angle" then
    [⟨"saddle", "back", deviation * 0.3, p,
      "Move saddle " ++ t ++ " backward to open hip angle",
      ["hip_angle"]⟩,
     ⟨"handlebar", "raise", deviation * 0.5, p,
      "Raise handlebars " ++ t ++ " to open hip angle",
      ["hip_angle", "shoulder_angle"]⟩]
  else if angle_type = "knee_angle" then
    [⟨"saddle", "raise", deviation * 0.3, p,
      "Raise saddle " ++ t ++ " to increase knee extension",
      ["knee_angle", "hip_angle"]⟩]
  else if angle_type = "shoulder_angle" then
    [⟨"handlebar", "raise", deviation * 0.5, p,
      "Raise handlebars " ++ t ++ " to open shoulder angle",
      ["shoulder_angle", "neck_angle"]⟩]
  else if angle_type = "elbow_angle" then
    [⟨"stem", "extend", deviation * 0.3, p,
      "Consider a longer stem to increase elbow extension",
      ["elbow_angle", "shoulder_angle"]⟩]
  else []

/-- Embedding of `BikeAdjustmentAnalyzer._generate_recommendations_for_high_angle`. -/
def generate_recommendations_for_high_angle (angle_type : String) (deviation : ℚ) :
    List AdjustmentRecommendation :=
  let p := (severity deviation).1
  let t := (severity deviation).2
  if angle_type = "neck_angle" then
    [⟨"handlebar", "lower", deviation, p,
      "Lower handlebars " ++ t ++ " to increase neck flexion",
      ["neck_angle", "shoulder_angle"]⟩]
  else if angle_type = "hip_angle" then
    [⟨"saddle", "forward", deviation * 0.3, p,
      "Move saddle " ++ t ++ " forward to close hip angle",
      ["hip_angle"]⟩] ++
    (if p < 3 then
      [⟨"handlebar", "lower", deviation * 0.5, p,
        "Lower handlebars " ++ t ++ " to close hip angle",
        ["hip_angle", "shoulder_angle"]⟩]
     else [])
  else if angle_type = "knee_angle" then
    [⟨"saddle", "lower", deviation * 0.3, p,
      "Lower saddle " ++ t ++ " to reduce knee extension",
      ["knee_angle", "hip_angle"]⟩]
  else if angle_type = "shoulder_angle" then
    [⟨"handlebar", "lower", deviation * 0.5, p,
      "Lower handlebars " ++ t ++ " to close shoulder angle",
      ["shoulder_angle", "neck_angle"]⟩] ++
    (if p < 3 then
      [⟨"stem", "extend", deviation * 0.3, p + 1,
        "Consider a longer stem to increase reach",
        ["shoulder_angle"]⟩]
     else [])
  else if angle_type = "elbow_angle" then
    [⟨"stem", "shorten", deviation * 0.3, p,
      "Consider a shorter stem to decrease elbow extension",
      ["elbow_angle", "shoulder_angle"]⟩]
  else []

/-- The per-angle rule dispatch of `analyze_pose` (lines 60-70): unknown angle
types and in-range angles contribute nothing. -/
def recommendations_for_angle (av : String × ℚ) : List AdjustmentRecommendation :=
  match IDEAL_ANGLES.lookup av.1 with
  | some mm =>
    if av.2 < mm.1 then generate_recommendations_for_low_angle av.1 (mm.1 - av.2)
    else if av.2 > mm.2 then generate_recommendations_for_high_angle av.1 (av.2 - mm.2)
    else []
  | none => []

/-- The concatenated rule-engine output of one `analyze_pose` call, in
emission order (before the final sort). -/
def angle_recommendations (angles : List (String × ℚ)) : List AdjustmentRecommendation :=
  angles.foldr (fun av acc => recommendations_for_angle av ++ acc) []

/-- Sort-key order on recommendations (`recommendations.sort(key=priority)`). -/
def recLE (a b : AdjustmentRecommendation) : Prop := a.priority ≤ b.priority

instance : DecidableRel recLE := fun a b => inferInstanceAs (Decidable (_ ≤ _))

instance : IsTotal AdjustmentRecommendation recLE :=
  ⟨fun a b => Nat.le_total a.priority b.priority⟩

instance : IsTrans AdjustmentRecommendation recLE :=
  ⟨fun _ _ _ h h' => Nat.le_trans h h'⟩

/-- Embedding of `BikeAdjustmentAnalyzer.analyze_pose`: rule-engine outputs for each angle
of the pose, concatenated in dict order, then stably sorted by priority. -/
def analyze_pose (angles : List (String × ℚ)) : List AdjustmentRecommendation :=
  (angle_recommendations angles).insertionSort recLE

/-- Embedding of the `guidance/feedback.py` `FeedbackItem` dataclass. -/
structure FeedbackItem where
  message : String
  type : String
  priority : ℕ
deriving DecidableEq

/-- Sort-key order on feedback items (`feedback_items.sort(key=priority)`). -/
def itemLE (a b : FeedbackItem) : Prop := a.priority ≤ b.priority

instance : DecidableRel itemLE := fun a b => inferInstanceAs (Decidable (_ ≤ _))

instance : IsTotal FeedbackItem itemLE :=
  ⟨fun a b => Nat.le_total a.priority b.priority⟩

instance : IsTrans FeedbackItem itemLE :=
  ⟨fun _ _ _ h h' => Nat.le_trans h h'⟩

/-- Python `str.title()` on a single character: uppercase after a
non-alphabetic character, lowercase after an alphabetic one. -/
def title_char (prev_alpha : Bool) (ch : Char) : Char :=
  if prev_alpha then ch.toLower else ch.toUpper

/-- Python `str.title()`: capitalize the first letter of each alphabetic run,
lowercase the rest. -/
def py_title (s : String) : String :=
  ⟨(s.data.foldl
      (fun acc ch => (acc.1 ++ [title_char acc.2 ch], ch.isAlpha))
      ([], false)).1⟩

/-- Python `min(adj_list, key=lambda x: x.priority)` starting from `a`: keeps
the current minimum and replaces it only on a strictly smaller priority, so
the first element attaining the minimal priority wins. -/
def min_by_priority (a : AdjustmentRecommendation) (l : List AdjustmentRecommendation) :
    AdjustmentRecommendation :=
  l.foldl (fun best r => if r.priority < best.priority then r else best) a

/-- First-occurrence order of components, as produced by the insertion-ordered
`component_adjustments` dict of `generate_feedback` (lines 64-70). -/
def component_list (l : List AdjustmentRecommendation) : List String :=
  l.foldl (fun acc r => if r.component ∈ acc then acc else acc ++ [r.component]) []

/-- The feedback item `generate_feedback` builds for one component
(lines 73-92): the first minimal-priority recommendation for that component,
title-cased component name plus description, warning for priority 1 or 2. -/
def component_feedback (l : List AdjustmentRecommendation) (c : String) : FeedbackItem :=
  match l.filter (fun r => r.component == c) with
  | [] => ⟨"", "info", 5⟩
  | a :: rest =>
    let adj := min_by_priority a rest
    { message := py_title c ++ ": " ++ adj.description
      type := if adj.priority = 1 then "warning"
              else if adj.priority = 2 then "warning"
              else "info"
      priority := adj.priority }

/-- The per-component section of `generate_feedback` (lines 64-92). -/
def component_feedback_items (l : List AdjustmentRecommendation) : List FeedbackItem :=
  (component_list l).map (component_feedback l)

/-- Literal item from `generate_feedback` line 42-46. -/
def success_item : FeedbackItem :=
  ⟨"Great job! Your bike fit looks good. All angles are within ideal ranges.",
   "success", 1⟩

/-- Literal item from `generate_feedback` line 52-56. -/
def significant_item : FeedbackItem :=
  ⟨"Your bike fit needs significant adjustment. Follow the recommendations to improve comfort and performance.",
   "warning", 1⟩

/-- Literal item from `generate_feedback` line 58-62. -/
def minor_item : FeedbackItem :=
  ⟨"Your bike fit is close to ideal. Some minor adjustments are recommended.",
   "info", 1⟩

/-- Literal item from `generate_feedback` line 99-103. -/
def neck_warning_item : FeedbackItem :=
  ⟨"Your neck is excessively flexed, which may cause neck strain. Try raising your handlebars.",
   "warning", 2⟩

/-- Literal item from `generate_feedback` line 106-110. -/
def hip_warning_item : FeedbackItem :=
  ⟨"Your hip angle is very closed, which may reduce power. Try adjusting your saddle position.",
   "warning", 2⟩

/-- Literal item from `generate_feedback` line 113-117. -/
def knee_warning_item : FeedbackItem :=
  ⟨"Your knee is nearly locked at full extension, which may cause knee pain. Lower your saddle slightly.",
   "warning", 2⟩

/-- Literal item from `generate_feedback` line 120-124. -/
def tip_item : FeedbackItem :=
  ⟨"Tip: Remember to pedal with a smooth, circular motion and engage your core muscles.",
   "info", 5⟩

/-- The direct postural threshold checks of `generate_feedback` (lines 95-117):
neck < 65, hip < 65, knee > 170, each guarded by key presence. -/
def posture_checks (angles : List (String × ℚ)) : List FeedbackItem :=
  (match angles.lookup "neck_angle" with
   | some v => if v < 65 then [neck_warning_item] else []
   | none => []) ++
  (match angles.lookup "hip_angle" with
   | some v => if v < 65 then [hip_warning_item] else []
   | none => []) ++
  (match angles.lookup "knee_angle" with
   | some v => if v > 170 then [knee_warning_item] else []
   | none => [])

/-- Embedding of `FeedbackGenerator.generate_feedback`: success short-circuit for an empty
recommendation list; otherwise summary item, per-component items, direct
postural checks, trailing tip, stably sorted by priority. -/
def generate_feedback (angles : List (String × ℚ))
    (adjustments : List AdjustmentRecommendation) : List FeedbackItem :=
  if adjustments.isEmpty then [success_item]
  else
    ((if (adjustments.filter (fun adj => adj.priority == 1)).isEmpty then minor_item
      else significant_item) ::
     (component_feedback_items adjustments ++ posture_checks angles ++ [tip_item])
    ).insertionSort itemLE

/-- C1 counterexample: with every per-landmark visibility equal to 1 the two
summed visibilities are exactly equal, yet the code selects the left side,
not the right side as the claim states. -/
theorem select_side_tie_not_right :
    side_visibility 1 1 1 = side_visibility 1 1 1 ∧
    select_side (side_visibility 1 1 1) (side_visibility 1 1 1) = Side.left ∧
    select_side (side_visibility 1 1 1) (side_visibility 1 1 1) ≠ Side.right := by
  refine ⟨rfl, ?_, ?_⟩ <;> norm_num [select_side, side_visibility] <;> decide

/-- C1 (amended): the right side is chosen exactly when its summed visibility
over shoulder, hip and knee is strictly greater; otherwise — including exact
ties — the left side is chosen. -/
theorem select_side_spec (rs rh rk ls lh lk : ℚ) :
    (select_side (side_visibility rs rh rk) (side_visibility ls lh lk) = Side.right ↔
      side_visibility ls lh lk < side_visibility rs rh rk) ∧
    (select_side (side_visibility rs rh rk) (side_visibility ls lh lk) = Side.left ↔
      ¬ side_visibility ls lh lk < side_visibility rs rh rk) := by
  unfold select_side
  split
  · next h => simp only [gt_iff_lt] at h; simp [h]
  · next h => simp only [gt_iff_lt] at h; simp [h]

/-- C2 counterexample: a pose whose knee angle is 175° (> 170°), passed with
an empty recommendation list, produces only the single success item — the
direct knee threshold check never fires on the empty short-circuit path. -/
theorem knee_warning_skipped_on_empty_adjustments :
    (170 : ℚ) < 175 ∧
    generate_feedback [("knee_angle", 175)] [] = [success_item] ∧
    knee_warning_item ∉ generate_feedback [("knee_angle", 175)] [] := by
  refine ⟨by norm_num, rfl, ?_⟩
  intro h
  rw [show generate_feedback [("knee_angle", 175)] [] = [success_item] from rfl] at h
  simp [knee_warning_item, success_item] at h

/-- C2 (amended): whenever the recommendation list passed to
`generate_feedback` is non-empty, a knee angle above 170° makes the direct
threshold check emit the knee warning item, independently of what the rule
engine produced. -/
theorem knee_warning_of_high_knee (angles : List (String × ℚ))
    (adjustments : List AdjustmentRecommendation) (v : ℚ)
    (hne : adjustments ≠ [])
    (hv : angles.lookup "knee_angle" = some v) (h170 : 170 < v) :
    knee_warning_item ∈ generate_feedback angles adjustments := by
  unfold generate_feedback
  rw [if_neg (by simpa [List.isEmpty_iff] using hne)]
  rw [List.mem_insertionSort]
  simp only [List.mem_cons, List.mem_append]
  have hk : knee_warning_item ∈ posture_checks angles := by
    unfold posture_checks
    rw [hv]
    simp [h170]
  tauto

/-- C2 witness: the amended theorem applied at a concrete pose and a concrete
single-recommendation list. -/
theorem knee_warning_of_high_knee_witness :
    knee_warning_item ∈ generate_feedback [("knee_angle", 175)]
      [⟨"saddle", "lower", 3/2, 3,
        "Lower saddle slightly to reduce knee extension",
        ["knee_angle", "hip_angle"]⟩] :=
  knee_warning_of_high_knee _ _ 175 (by simp) rfl (by norm_num)

/-- C3: a neck angle of 50° against the ideal range (65, 75) is 15° below the
minimum, lands in the major tier (priority 1), and the rule engine emits
exactly two recommendations in order: raise handlebar (amount 15, priority 1)
then shorten stem (amount 7.5, priority 2). -/
theorem neck_scenario_A :
    IDEAL_ANGLES.lookup "neck_angle" = some (65, 75) ∧
    analyze_pose [("neck_angle", 50)] =
      [⟨"handlebar", "raise", 15, 1,
        "Raise handlebars significantly to reduce neck flexion",
        ["neck_angle", "shoulder_angle"]⟩,
       ⟨"stem", "shorten", 15/2, 2,
        "Consider a shorter stem to bring handlebars closer",
        ["neck_angle", "shoulder_angle"]⟩] := by
  refine ⟨rfl, ?_⟩
  norm_num [analyze_pose, angle_recommendations, recommendations_for_angle,
    IDEAL_ANGLES, List.lookup, generate_recommendations_for_low_angle, severity,
    minor_threshold, moderate_threshold, List.insertionSort, List.orderedInsert, recLE]
  rfl

/-- C9: for every pose, `generate_feedback` with an empty recommendation list
short-circuits to exactly one item, of type "success" and priority 1; no
component items, threshold warnings or trailing tip are produced. -/
theorem generate_feedback_empty (angles : List (String × ℚ)) :
    generate_feedback angles [] = [success_item] ∧
    success_item.type = "success" ∧ success_item.priority = 1 :=
  ⟨rfl, rfl, rfl⟩

/-- C4: for every angle value and every range with min ≤ max, exactly one of
in-range (both ends inclusive), below (v < min) or above (v > max) holds; the
deviation is 0 exactly when in range, equals min − v (strictly positive) when
below and v − max (strictly positive) when above. -/
theorem classification_total (v min_val max_val : ℚ) (h : min_val ≤ max_val) :
    ((is_in_range v min_val max_val = true ∧ ¬v < min_val ∧ ¬max_val < v) ∨
     (v < min_val ∧ is_in_range v min_val max_val = false ∧ ¬max_val < v) ∨
     (max_val < v ∧ is_in_range v min_val max_val = false ∧ ¬v < min_val)) ∧
    (deviation_of v min_val max_val = 0 ↔ is_in_range v min_val max_val = true) ∧
    (v < min_val →
      deviation_of v min_val max_val = min_val - v ∧ 0 < deviation_of v min_val max_val) ∧
    (max_val < v →
      deviation_of v min_val max_val = v - max_val ∧ 0 < deviation_of v min_val max_val) := by
  unfold is_in_range deviation_of
  refine ⟨?_, ?_, ?_, ?_⟩
  · by_cases h1 : v < min_val
    · exact Or.inr (Or.inl ⟨h1, by simp [not_le.mpr h1], by intro hc; linarith⟩)
    · by_cases h2 : max_val < v
      · exact Or.inr (Or.inr ⟨h2, by simp [not_le.mpr h2], h1⟩)
      · exact Or.inl ⟨by simp [le_of_not_lt h1, le_of_not_lt h2], h1, h2⟩
  · by_cases h1 : v < min_val
    · rw [if_pos h1]
      constructor
      · intro h0; exfalso; linarith
      · intro hr; simp only [Bool.and_eq_true, decide_eq_true_eq] at hr; linarith [hr.1]
    · by_cases h2 : max_val < v
      · rw [if_neg h1, if_pos h2]
        constructor
        · intro h0; exfalso; linarith
        · intro hr; simp only [Bool.and_eq_true, decide_eq_true_eq] at hr; linarith [hr.2]
      · rw [if_neg h1, if_neg h2]
        simp [le_of_not_lt h1, le_of_not_lt h2]
  · intro h1
    rw [if_pos h1]
    exact ⟨rfl, by linarith⟩
  · intro h2
    by_cases h1 : v < min_val
    · exact absurd h2 (by linarith)
    · rw [if_neg h1, if_pos h2]
      exact ⟨rfl, by linarith⟩

/-- C4 witness: the classification theorem applied at value 50 and range
(65, 75). -/
theorem classification_total_witness :
    (65 : ℚ) ≤ 75 ∧
    (deviation_of 50 65 75 = 0 ↔ is_in_range 50 65 75 = true) ∧
    ((50 : ℚ) < 65 → deviation_of 50 65 75 = 65 - 50 ∧ 0 < deviation_of 50 65 75) :=
  ⟨by norm_num,
   (classification_total 50 65 75 (by norm_num)).2.1,
   (classification_total 50 65 75 (by norm_num)).2.2.1⟩

/-- Helper bound inherited from `Complex.arg`: the two-argument arctangent
always lies within `[-π, π]` in absolute value. -/
theorem abs_atan2_le_pi (y x : ℝ) : |atan2 y x| ≤ Real.pi :=
  Complex.abs_arg_le_pi _

/-- C7: for every triple of points, the angle returned by `calculate_angle`
lies in `[0, 180]`: the raw absolute degree difference is below 360, and the
fold `360 - angle` applied above 180 lands back inside the range. -/
theorem calculate_angle_range (a b c : Point) :
    0 ≤ calculate_angle a b c ∧ calculate_angle a b c ≤ 180 := by
  have hpi := Real.pi_pos
  have h1 := abs_atan2_le_pi ((c.y : ℝ) - (b.y : ℝ)) ((c.x : ℝ) - (b.x : ℝ))
  have h2 := abs_atan2_le_pi ((a.y : ℝ) - (b.y : ℝ)) ((a.x : ℝ) - (b.x : ℝ))
  unfold calculate_angle
  set u := atan2 ((c.y : ℝ) - (b.y : ℝ)) ((c.x : ℝ) - (b.x : ℝ)) with hu
  set w := atan2 ((a.y : ℝ) - (b.y : ℝ)) ((a.x : ℝ) - (b.x : ℝ)) with hw
  have habs : |u - w| ≤ 2 * Real.pi := le_trans (abs_sub u w) (by linarith)
  have hA0 : 0 ≤ |(u - w) * 180 / Real.pi| := abs_nonneg _
  have hA : |(u - w) * 180 / Real.pi| ≤ 360 := by
    rw [abs_div, abs_mul, abs_of_pos hpi, show |(180 : ℝ)| = 180 by norm_num,
      div_le_iff₀ hpi]
    nlinarith
  simp only []
  split
  · next hgt => constructor <;> linarith
  · next hle => exact ⟨hA0, by linarith [not_lt.mp hle]⟩

/-- C8: `calculate_angle` is symmetric in its outer arguments, since swapping
them negates the arctangent difference and the absolute value removes the
sign. -/
theorem calculate_angle_symm (a b c : Point) :
    calculate_angle a b c = calculate_angle c b a := by
  simp only [calculate_angle]
  rw [show atan2 ((c.y : ℝ) - (b.y : ℝ)) ((c.x : ℝ) - (b.x : ℝ)) -
        atan2 ((a.y : ℝ) - (b.y : ℝ)) ((a.x : ℝ) - (b.x : ℝ)) =
      -(atan2 ((a.y : ℝ) - (b.y : ℝ)) ((a.x : ℝ) - (b.x : ℝ)) -
        atan2 ((c.y : ℝ) - (b.y : ℝ)) ((c.x : ℝ) - (b.x : ℝ))) from by ring,
    neg_mul, neg_div, abs_neg]

/-- C5: for every pose, `analyze_pose` returns the concatenated rule-engine
output stably sorted ascending by priority: the result is pairwise sorted, is
a permutation of the concatenation (nothing removed or merged), and for every
priority value the sub-list of recommendations with that priority is exactly
the one of the unsorted concatenation, in the same order (stability). -/
theorem analyze_pose_stable_sort (angles : List (String × ℚ)) :
    (analyze_pose angles).Sorted recLE ∧
    (analyze_pose angles).Perm (angle_recommendations angles) ∧
    ∀ k : ℕ, (analyze_pose angles).filter (fun r => r.priority == k) =
      (angle_recommendations angles).filter (fun r => r.priority == k) := by
  unfold analyze_pose
  refine ⟨List.sorted_insertionSort recLE _, List.perm_insertionSort recLE _, ?_⟩
  intro k
  set l := angle_recommendations angles with hl
  set p : AdjustmentRecommendation → Bool := fun r => r.priority == k with hp
  have hmem : ∀ x ∈ l.filter p, x.priority = k := by
    intro x hx
    have h2 := (List.mem_filter.mp hx).2
    simp only [hp, beq_iff_eq] at h2
    exact h2
  have hc : (l.filter p).Pairwise recLE := by
    apply List.pairwise_of_forall_mem_list
    intro x hx y hy
    unfold recLE
    rw [hmem x hx, hmem y hy]
  have h1 : List.Sublist (l.filter p) (List.insertionSort recLE l) :=
    List.sublist_insertionSort hc (List.filter_sublist l)
  have h2 := h1.filter p
  simp only [List.filter_filter, Bool.and_self] at h2
  have h3 : List.Perm ((List.insertionSort recLE l).filter p) (l.filter p) :=
    (List.perm_insertionSort recLE l).filter p
  exact (h2.eq_of_length h3.length_eq.symm).symm

/-- Helper: the severity tier priority is always 1, 2 or 3. -/
theorem severity_priority_mem (d : ℚ) :
    (severity d).1 = 1 ∨ (severity d).1 = 2 ∨ (severity d).1 = 3 := by
  unfold severity
  split_ifs <;> simp

/-- Helper: a bonus-rule priority `p + 1` guarded by `p < 3` is still 1, 2 or 3. -/
theorem severity_succ_priority_mem (d : ℚ) (h : (severity d).1 < 3) :
    (severity d).1 + 1 = 1 ∨ (severity d).1 + 1 = 2 ∨ (severity d).1 + 1 = 3 := by
  rcases severity_priority_mem d with h1 | h1 | h1 <;> omega

/-- Helper: every low-angle recommendation has priority 1, 2 or 3 and a
strictly positive amount whenever the deviation is strictly positive. -/
theorem low_angle_rec_spec (t : String) (d : ℚ) (hd : 0 < d) :
    ∀ r ∈ generate_recommendations_for_low_angle t d,
      (r.priority = 1 ∨ r.priority = 2 ∨ r.priority = 3) ∧ 0 < r.amount := by
  intro r hr
  have h05 : (0 : ℚ) < 0.5 := by norm_num
  have h03 : (0 : ℚ) < 0.3 := by norm_num
  simp only [generate_recommendations_for_low_angle] at hr
  split_ifs at hr <;>
    simp only [List.mem_append, List.mem_cons, List.mem_singleton,
      List.not_mem_nil, or_false] at hr <;>
    first
      | exact absurd hr (List.not_mem_nil r)
      | (rcases hr with rfl | rfl <;>
          refine ⟨?_, ?_⟩ <;>
            first
              | exact severity_priority_mem d
              | exact severity_succ_priority_mem d ‹_›
              | exact hd
              | exact mul_pos hd h05
              | exact mul_pos hd h03)

/-- Helper: every high-angle recommendation has priority 1, 2 or 3 and a
strictly positive amount whenever the deviation is strictly positive. -/
theorem high_angle_rec_spec (t : String) (d : ℚ) (hd : 0 < d) :
    ∀ r ∈ generate_recommendations_for_high_angle t d,
      (r.priority = 1 ∨ r.priority = 2 ∨ r.priority = 3) ∧ 0 < r.amount := by
  intro r hr
  have h05 : (0 : ℚ) < 0.5 := by norm_num
  have h03 : (0 : ℚ) < 0.3 := by norm_num
  simp only [generate_recommendations_for_high_angle] at hr
  split_ifs at hr <;>
    simp only [List.mem_append, List.mem_cons, List.mem_singleton,
      List.not_mem_nil, or_false] at hr <;>
    first
      | exact absurd hr (List.not_mem_nil r)
      | (rcases hr with rfl | rfl <;>
          refine ⟨?_, ?_⟩ <;>
            first
              | exact severity_priority_mem d
              | exact severity_succ_priority_mem d ‹_›
              | exact hd
              | exact mul_pos hd h05
              | exact mul_pos hd h03)

/-- Helper: membership in the concatenated rule-engine output decomposes into
membership in the output of one angle. -/
theorem mem_angle_recommendations {r : AdjustmentRecommendation}
    {angles : List (String × ℚ)} :
    r ∈ angle_recommendations angles ↔
      ∃ av ∈ angles, r ∈ recommendations_for_angle av := by
  induction angles with
  | nil => simp [angle_recommendations]
  | cons av rest ih =>
    unfold angle_recommendations at ih ⊢
    simp only [List.foldr_cons, List.mem_append, List.mem_cons, ih]
    constructor
    · rintro (h | ⟨av2, h2, h3⟩)
      · exact ⟨av, Or.inl rfl, h⟩
      · exact ⟨av2, Or.inr h2, h3⟩
    · rintro ⟨av2, (rfl | h2), h3⟩
      · exact Or.inl h3
      · exact Or.inr ⟨av2, h2, h3⟩

/-- Helper: every recommendation emitted for a single angle has priority 1, 2
or 3 and a strictly positive amount. -/
theorem rec_for_angle_spec (av : String × ℚ) :
    ∀ r ∈ recommendations_for_angle av,
      (r.priority = 1 ∨ r.priority = 2 ∨ r.priority = 3) ∧ 0 < r.amount := by
  intro r hr
  unfold recommendations_for_angle at hr
  rcases h : IDEAL_ANGLES.lookup av.1 with _ | mm
  · rw [h] at hr
    simp at hr
  · rw [h] at hr
    simp only [] at hr
    split_ifs at hr with h1 h2
    · exact low_angle_rec_spec _ _ (by linarith) r hr
    · exact high_angle_rec_spec _ _ (by linarith) r hr
    · simp at hr

/-- C10: every recommendation returned by `analyze_pose` has an integer
priority in {1, 2, 3} — never 4 or 5 — and a strictly positive amount. -/
theorem analyze_pose_priorities_amounts (angles : List (String × ℚ)) :
    ∀ r ∈ analyze_pose angles,
      (r.priority = 1 ∨ r.priority = 2 ∨ r.priority = 3) ∧ 0 < r.amount := by
  intro r hr
  rw [analyze_pose, List.mem_insertionSort] at hr
  rcases mem_angle_recommendations.mp hr with ⟨av, _, hav⟩
  exact rec_for_angle_spec av r hav

/-- C10 witness: the invariant applied to the first recommendation of the
concrete neck-angle pose. -/
theorem analyze_pose_priorities_amounts_witness :
    ((⟨"handlebar", "raise", 15, 1,
       "Raise handlebars significantly to reduce neck flexion",
       ["neck_angle", "shoulder_angle"]⟩ : AdjustmentRecommendation).priority = 1 ∨
     (⟨"handlebar", "raise", 15, 1,
       "Raise handlebars significantly to reduce neck flexion",
       ["neck_angle", "shoulder_angle"]⟩ : AdjustmentRecommendation).priority = 2 ∨
     (⟨"handlebar", "raise", 15, 1,
       "Raise handlebars significantly to reduce neck flexion",
       ["neck_angle", "shoulder_angle"]⟩ : AdjustmentRecommendation).priority = 3) ∧
    (0 : ℚ) < (⟨"handlebar", "raise", 15, 1,
       "Raise handlebars significantly to reduce neck flexion",
       ["neck_angle", "shoulder_angle"]⟩ : AdjustmentRecommendation).amount :=
  analyze_pose_priorities_amounts [("neck_angle", 50)] _ (by
    norm_num [analyze_pose, angle_recommendations, recommendations_for_angle,
      IDEAL_ANGLES, List.lookup, generate_recommendations_for_low_angle, severity,
      minor_threshold, moderate_threshold, List.insertionSort, List.orderedInsert, recLE]
    rfl)

/-- Helper: membership in the insertion-ordered component accumulator. -/
theorem component_list_aux_mem (l : List AdjustmentRecommendation)
    (acc : List String) (c : String) :
    c ∈ l.foldl
      (fun acc r => if r.component ∈ acc then acc else acc ++ [r.component]) acc ↔
      c ∈ acc ∨ ∃ r ∈ l, r.component = c := by
  induction l generalizing acc with
  | nil => simp
  | cons r rest ih =>
    simp only [List.foldl_cons]
    rw [ih]
    by_cases h : r.component ∈ acc
    · rw [if_pos h]
      have hrc : r.component = c → c ∈ acc := fun e => e ▸ h
      constructor
      · rintro (hc | ⟨r2, h2, h3⟩)
        · exact Or.inl hc
        · exact Or.inr ⟨r2, List.mem_cons_of_mem r h2, h3⟩
      · rintro (hc | ⟨r2, h2, h3⟩)
        · exact Or.inl hc
        · rcases List.mem_cons.mp h2 with rfl | h4
          · exact Or.inl (hrc h3)
          · exact Or.inr ⟨r2, h4, h3⟩
    · rw [if_neg h]
      simp only [List.mem_append, List.mem_singleton]
      constructor
      · rintro ((hc | rfl) | ⟨r2, h2, h3⟩)
        · exact Or.inl hc
        · exact Or.inr ⟨r, List.mem_cons_self r rest, rfl⟩
        · exact Or.inr ⟨r2, List.mem_cons_of_mem r h2, h3⟩
      · rintro (hc | ⟨r2, h2, h3⟩)
        · exact Or.inl (Or.inl hc)
        · rcases List.mem_cons.mp h2 with rfl | h4
          · exact Or.inl (Or.inr h3.symm)
          · exact Or.inr ⟨r2, h4, h3⟩

/-- Helper: the insertion-ordered component accumulator stays duplicate-free. -/
theorem component_list_aux_nodup (l : List AdjustmentRecommendation)
    (acc : List String) (h : acc.Nodup) :
    (l.foldl
      (fun acc r => if r.component ∈ acc then acc else acc ++ [r.component]) acc).Nodup := by
  induction l generalizing acc with
  | nil => simpa using h
  | cons r rest ih =>
    simp only [List.foldl_cons]
    by_cases hmem : r.component ∈ acc
    · rw [if_pos hmem]
      exact ih acc h
    · rw [if_neg hmem]
      refine ih _ ?_
      simp [List.nodup_append, h, hmem]

/-- Helper: the first-occurrence component list is duplicate-free. -/
theorem component_list_nodup (l : List AdjustmentRecommendation) :
    (component_list l).Nodup :=
  component_list_aux_nodup l [] List.nodup_nil

/-- Helper: a component occurs in `component_list` exactly when some
recommendation targets it. -/
theorem component_list_mem (l : List AdjustmentRecommendation) (c : String) :
    c ∈ component_list l ↔ ∃ r ∈ l, r.component = c := by
  unfold component_list
  rw [component_list_aux_mem]
  simp

/-- Helper: the running minimum never exceeds the start element or any list
element. -/
theorem min_by_priority_le (a : AdjustmentRecommendation)
    (l : List AdjustmentRecommendation) :
    (min_by_priority a l).priority ≤ a.priority ∧
    ∀ b ∈ l, (min_by_priority a l).priority ≤ b.priority := by
  induction l generalizing a with
  | nil => simp [min_by_priority]
  | cons r rest ih =>
    have hstep : min_by_priority a (r :: rest) =
        min_by_priority (if r.priority < a.priority then r else a) rest := rfl
    rw [hstep]
    rcases ih (if r.priority < a.priority then r else a) with ⟨h1, h2⟩
    have hle_a : (if r.priority < a.priority then r else a).priority ≤ a.priority := by
      split <;> omega
    have hle_r : (if r.priority < a.priority then r else a).priority ≤ r.priority := by
      split
      · exact le_refl _
      · next h => exact le_of_not_lt h
    refine ⟨le_trans h1 hle_a, ?_⟩
    intro b hb
    rcases List.mem_cons.mp hb with rfl | hb2
    · exact le_trans h1 hle_r
    · exact h2 b hb2

/-- Helper: `min_by_priority` returns the first element attaining the minimal
priority — every element strictly before it has strictly larger priority and
every element after it has larger-or-equal priority. -/
theorem min_by_priority_first (a : AdjustmentRecommendation)
    (l : List AdjustmentRecommendation) :
    ∃ l1 l2, a :: l = l1 ++ (min_by_priority a l) :: l2 ∧
      (∀ b ∈ l1, (min_by_priority a l).priority < b.priority) ∧
      (∀ b ∈ l2, (min_by_priority a l).priority ≤ b.priority) := by
  induction l generalizing a with
  | nil => exact ⟨[], [], by simp [min_by_priority], by simp, by simp⟩
  | cons r rest ih =>
    have hstep : min_by_priority a (r :: rest) =
        min_by_priority (if r.priority < a.priority then r else a) rest := rfl
    rw [hstep]
    by_cases hlt : r.priority < a.priority
    · rw [if_pos hlt]
      rcases ih r with ⟨l1, l2, heq, hl1, hl2⟩
      have hm_le_r : (min_by_priority r rest).priority ≤ r.priority :=
        (min_by_priority_le r rest).1
      refine ⟨a :: l1, l2, ?_, ?_, hl2⟩
      · rw [List.cons_append, ← heq]
      · intro b hb
        rcases List.mem_cons.mp hb with rfl | hb2
        · omega
        · exact hl1 b hb2
    · rw [if_neg hlt]
      rcases ih a with ⟨l1, l2, heq, hl1, hl2⟩
      set m := min_by_priority a rest with hm
      cases l1 with
      | nil =>
        simp only [List.nil_append, List.cons.injEq] at heq
        obtain ⟨h1, h2⟩ := heq
        refine ⟨[], r :: l2, ?_, by simp, ?_⟩
        · simp [← h1, ← h2]
        · intro b hb
          rcases List.mem_cons.mp hb with rfl | hb2
          · rw [← h1]
            exact le_of_not_lt hlt
          · exact hl2 b hb2
      | cons x l1t =>
        simp only [List.cons_append, List.cons.injEq] at heq
        obtain ⟨rfl, h2⟩ := heq
        refine ⟨a :: r :: l1t, l2, ?_, ?_, hl2⟩
        · rw [h2]
          rfl
        · intro b hb
          have hx : m.priority < a.priority := hl1 a (List.mem_cons_self a l1t)
          rcases List.mem_cons.mp hb with rfl | hb2
          · exact hx
          · rcases List.mem_cons.mp hb2 with rfl | hb3
            · have h3 := le_of_not_lt hlt
              omega
            · exact hl1 b (List.mem_cons_of_mem a hb3)

/-- Helper: the per-component feedback item, spelled out on a non-empty
filtered list. -/
theorem component_feedback_cons (l : List AdjustmentRecommendation) (c : String)
    (a0 : AdjustmentRecommendation) (rest : List AdjustmentRecommendation)
    (h : l.filter (fun r => r.component == c) = a0 :: rest) :
    component_feedback l c =
      { message := py_title c ++ ": " ++ (min_by_priority a0 rest).description
        type := if (min_by_priority a0 rest).priority = 1 then "warning"
                else if (min_by_priority a0 rest).priority = 2 then "warning"
                else "info"
        priority := (min_by_priority a0 rest).priority } := by
  unfold component_feedback
  rw [h]

/-- C6: for every non-empty recommendation list (priorities in the documented
range, at least 1), the grouping step of `generate_feedback` emits exactly one
item per distinct component; that item is built from the first minimal-priority
recommendation of its component in input order, carries the component name and
that description as its message, type "warning" exactly when that priority is
at most 2, the same priority, and is part of the `generate_feedback` output. -/
theorem generate_feedback_component_items (angles : List (String × ℚ))
    (l : List AdjustmentRecommendation)
    (hne : l ≠ []) (hp : ∀ r ∈ l, 1 ≤ r.priority) :
    (component_feedback_items l).length = (component_list l).length ∧
    (component_list l).Nodup ∧
    (∀ c, c ∈ component_list l ↔ ∃ r ∈ l, r.component = c) ∧
    (∀ c ∈ component_list l, component_feedback l c ∈ generate_feedback angles l) ∧
    (∀ c ∈ component_list l, ∃ a l1 l2,
      l.filter (fun r => r.component == c) = l1 ++ a :: l2 ∧
      (∀ b ∈ l1, a.priority < b.priority) ∧
      (∀ b ∈ l2, a.priority ≤ b.priority) ∧
      component_feedback l c =
        ⟨py_title c ++ ": " ++ a.description,
         if a.priority ≤ 2 then "warning" else "info",
         a.priority⟩) := by
  refine ⟨by simp [component_feedback_items], component_list_nodup l,
    component_list_mem l, ?_, ?_⟩
  · intro c hc
    unfold generate_feedback
    rw [if_neg (by simpa [List.isEmpty_iff] using hne)]
    rw [List.mem_insertionSort]
    simp only [List.mem_cons, List.mem_append]
    have : component_feedback l c ∈ component_feedback_items l :=
      List.mem_map_of_mem (component_feedback l) hc
    tauto
  · intro c hc
    obtain ⟨r, hrl, hrc⟩ := (component_list_mem l c).mp hc
    have hrf : r ∈ l.filter (fun r => r.component == c) :=
      List.mem_filter.mpr ⟨hrl, by simp [hrc]⟩
    cases hfe : l.filter (fun r => r.component == c) with
    | nil =>
      rw [hfe] at hrf
      exact absurd hrf (List.not_mem_nil r)
    | cons a0 rest =>
      obtain ⟨l1, l2, heq, hl1, hl2⟩ := min_by_priority_first a0 rest
      set a := min_by_priority a0 rest with ha
      have hfl : l.filter (fun r => r.component == c) = l1 ++ a :: l2 := by
        rw [hfe, heq]
      have hal : a ∈ l := by
        have : a ∈ l.filter (fun r => r.component == c) := by
          rw [hfl]
          simp
        exact List.mem_of_mem_filter this
      have ha1 : 1 ≤ a.priority := hp a hal
      refine ⟨a, l1, l2, heq, hl1, hl2, ?_⟩
      rw [component_feedback_cons l c a0 rest hfe]
      have htype : (if a.priority = 1 then "warning"
          else if a.priority = 2 then "warning" else "info") =
          (if a.priority ≤ 2 then "warning" else "info") := by
        split_ifs <;> first | rfl | omega
      rw [← ha, htype]

/-- C6 witness: the grouping theorem applied to a concrete two-element
recommendation list sharing the "saddle" component. -/
theorem generate_feedback_component_items_witness :
    (component_feedback_items
      [⟨"saddle", "lower", 1, 3, "Lower saddle slightly to reduce knee extension",
        ["knee_angle", "hip_angle"]⟩,
       ⟨"saddle", "forward", 2, 2, "Move saddle moderately forward to close hip angle",
        ["hip_angle"]⟩]).length =
    (component_list
      [⟨"saddle", "lower", 1, 3, "Lower saddle slightly to reduce knee extension",
        ["knee_angle", "hip_angle"]⟩,
       ⟨"saddle", "forward", 2, 2, "Move saddle moderately forward to close hip angle",
        ["hip_angle"]⟩]).length :=
  (generate_feedback_component_items []
    [⟨"saddle", "lower", 1, 3, "Lower saddle slightly to reduce knee extension",
      ["knee_angle", "hip_angle"]⟩,
     ⟨"saddle", "forward", 2, 2, "Move saddle moderately forward to close hip angle",
      ["hip_angle"]⟩]
    (by simp) (by decide)).1

end BikeFit
